import Mathlib

/-!
Verification of the archive-migration tool (`src/bin/migrate.py`).

Bytes are modelled as `List Nat` (each entry a byte value).  Python's
signed 64-bit struct fields are modelled as `Int` with explicit
two's-complement reduction modulo `2^64`.  Fallible code returns
`Except` / `Option`.  The external `pygob` tagged-value codec is not part
of the repository; it is modelled from the spec (see the `gob*`
definitions below).
-/

namespace ClipMigrate

/-- Size of the fixed archive header, `CLIP_ARCHIVE_HEADER_SIZE` in the source. -/
def CLIP_ARCHIVE_HEADER_SIZE : Nat := 54

/-- `BucketConfiguration` from the source.  String fields are modelled as
byte lists (the source converts them with `bytes(s, "utf-8")` before use). -/
structure BucketConfiguration where
  bucket : List Nat
  region : List Nat
  endpoint : List Nat
  force_path_style : Bool
  access_key : Option (List Nat) := none
  secret_key : Option (List Nat) := none
  deriving DecidableEq, Repr

/-- `ClipArchiveHeader` from the source: 9-byte magic, one version byte,
four signed 64-bit little-endian integers and a 12-byte NUL-padded type tag. -/
structure ClipArchiveHeader where
  start_bytes : List Nat
  clip_file_format_version : Nat
  index_length : Int
  index_pos : Int
  storage_info_length : Int
  storage_info_pos : Int
  storage_info_type : List Nat
  deriving DecidableEq, Repr

/-- `S3StorageInfo` from the source (field values are byte strings). -/
structure S3StorageInfo where
  Bucket : List Nat
  Region : List Nat
  Key : List Nat
  Endpoint : List Nat
  deriving DecidableEq, Repr

/-- `StorageInfoWrapper` from the source.  The Python field `Type` is named
`Type'` here because `Type` is reserved in Lean. -/
structure StorageInfoWrapper where
  Type' : List Nat
  Data : List Nat
  deriving DecidableEq, Repr

/-! ## Little-endian integer codec (struct "<q" fields) -/

/-- Little-endian base-256 digits of `n`, exactly `k` bytes (as `struct.pack`
produces for a field of width `k` after two's-complement reduction). -/
def natToLe : Nat → Nat → List Nat
  | 0, _ => []
  | k + 1, n => n % 256 :: natToLe k (n / 256)

/-- Value of a little-endian byte list. -/
def leToNat : List Nat → Nat
  | [] => 0
  | b :: rest => b + 256 * leToNat rest

/-- Two's-complement encoding of a signed 64-bit value, as `struct.pack "<q"`
lays it out (the source only ever packs values obtained from a previous
unpack or a Python `len`, all within range; out-of-range values are reduced
modulo `2^64` here where `struct.pack` would raise). -/
def int64ToBytes (i : Int) : List Nat :=
  natToLe 8 (i % (18446744073709551616 : Int)).toNat

/-- Signed interpretation of 8 little-endian bytes, as `struct.unpack "<q"`. -/
def bytesToInt64 (b : List Nat) : Int :=
  let n := leToNat b
  if n < 9223372036854775808 then (n : Int) else (n : Int) - 18446744073709551616

/-- Pad with NUL bytes (or truncate) to exactly `n` bytes, as `struct.pack`
does for an `ns` field. -/
def padTo (n : Nat) (b : List Nat) : List Nat :=
  b.take n ++ List.replicate (n - b.length) 0

/-! ## Header codec (struct format "<9sBqqqq12s") -/

/-- `struct.pack("<9sBqqqq12s", ...)` as used in `update_binary`. -/
def packHeader (h : ClipArchiveHeader) : List Nat :=
  padTo 9 h.start_bytes
    ++ [h.clip_file_format_version % 256]
    ++ int64ToBytes h.index_length
    ++ int64ToBytes h.index_pos
    ++ int64ToBytes h.storage_info_length
    ++ int64ToBytes h.storage_info_pos
    ++ padTo 12 h.storage_info_type

/-- `struct.unpack("<9sBqqqq12s", data)`: succeeds exactly when `data` is 54
bytes long (every byte pattern is a valid `B`/`q`/`s` field). -/
def unpackHeader (data : List Nat) : Option ClipArchiveHeader :=
  if data.length = 54 then
    some
      { start_bytes := data.take 9
        clip_file_format_version := (data.drop 9).headD 0
        index_length := bytesToInt64 ((data.drop 10).take 8)
        index_pos := bytesToInt64 ((data.drop 18).take 8)
        storage_info_length := bytesToInt64 ((data.drop 26).take 8)
        storage_info_pos := bytesToInt64 ((data.drop 34).take 8)
        storage_info_type := (data.drop 42).take 12 }
  else none

/-- Failure modes of `get_header`.  `unboundLocalError` is the uncaught
Python `UnboundLocalError` raised when the `struct.error` handler falls
through and `unpacked_data` is referenced unassigned; `malformedHeaderError`
is the structured `MalformedHeaderError` the spec calls for (the source
never produces it). -/
inductive HeaderFailure where
  | unboundLocalError
  | malformedHeaderError
  deriving DecidableEq, Repr

/-- `ImageMigrator.get_header`: reads the first 54 bytes of the source
object and unpacks them.  With fewer than 54 bytes available,
`struct.unpack` raises `struct.error`, the handler only prints, and the
subsequent use of `unpacked_data` raises `UnboundLocalError`. -/
def get_header (archive : List Nat) : Except HeaderFailure ClipArchiveHeader :=
  match unpackHeader (archive.take CLIP_ARCHIVE_HEADER_SIZE) with
  | some h => .ok h
  | none => .error .unboundLocalError

/-! ## Tagged-value codec

Modelled from the spec: the repository serializes the storage descriptor
with the external `pygob` library (Go gob encoding), which is not part of
the repository.  Per spec §4.2 the codec is a deterministic,
self-describing encoding carrying its own type metadata, with
`decode(encode(v)) == v` for all supported shapes and decode failure on
truncated bytes or an unknown type tag.  The model below realises that
contract: each struct's encoding starts with a type-metadata tag and each
byte-string field is length-prefixed with a self-delimiting varint. -/

/-- Modelled from the spec: self-delimiting length prefix of the
tagged-value codec (7-bit groups, high bit marks continuation), standing in
for gob's unsigned-integer encoding.  `encVarintAux fuel n` with `n ≤ fuel`
computes the encoding of `n`. -/
def encVarintAux : Nat → Nat → List Nat
  | 0, n => [n % 128]
  | fuel + 1, n => if n < 128 then [n] else (n % 128 + 128) :: encVarintAux fuel (n / 128)

/-- Modelled from the spec: varint encoding of a natural number. -/
def encVarint (n : Nat) : List Nat :=
  encVarintAux n n

/-- Modelled from the spec: varint decoding; returns the value and the
remaining bytes, or `none` on truncation. -/
def decVarint : List Nat → Option (Nat × List Nat)
  | [] => none
  | b :: rest =>
    if b < 128 then some (b, rest)
    else
      match decVarint rest with
      | some (n, rest2) => some (b - 128 + 128 * n, rest2)
      | none => none

/-- Modelled from the spec: a length-prefixed byte-string field. -/
def encBytes (b : List Nat) : List Nat :=
  encVarint b.length ++ b

/-- Modelled from the spec: decode a length-prefixed byte-string field,
failing when the announced length exceeds the available bytes. -/
def decBytes (l : List Nat) : Option (List Nat × List Nat) :=
  match decVarint l with
  | none => none
  | some (n, rest) => if n ≤ rest.length then some (rest.take n, rest.drop n) else none

/-- Modelled from the spec: embedded type metadata identifying the
`S3StorageInfo` shape inside its encoding. -/
def s3InfoTag : List Nat := [1]

/-- Modelled from the spec: embedded type metadata identifying the
`StorageInfoWrapper` shape inside its encoding. -/
def wrapperTag : List Nat := [2]

/-- Modelled from the spec: `pygob.dump` of an `S3StorageInfo` value —
type metadata followed by the four length-prefixed fields. -/
def gobDumpS3Info (s : S3StorageInfo) : List Nat :=
  s3InfoTag ++ encBytes s.Bucket ++ encBytes s.Region ++ encBytes s.Key ++ encBytes s.Endpoint

/-- Modelled from the spec: `pygob.load` into an `S3StorageInfo`, failing on
a wrong type tag, truncation, or trailing bytes. -/
def gobLoadS3Info (l : List Nat) : Option S3StorageInfo :=
  if l.take s3InfoTag.length = s3InfoTag then
    match decBytes (l.drop s3InfoTag.length) with
    | none => none
    | some (b, r1) =>
      match decBytes r1 with
      | none => none
      | some (rg, r2) =>
        match decBytes r2 with
        | none => none
        | some (k, r3) =>
          match decBytes r3 with
          | none => none
          | some (e, r4) => if r4 = [] then some ⟨b, rg, k, e⟩ else none
  else none

/-- Modelled from the spec: `pygob.dump` of a `StorageInfoWrapper`. -/
def gobDumpWrapper (w : StorageInfoWrapper) : List Nat :=
  wrapperTag ++ encBytes w.Type' ++ encBytes w.Data

/-- Modelled from the spec: `pygob.load` into a `StorageInfoWrapper`. -/
def gobLoadWrapper (l : List Nat) : Option StorageInfoWrapper :=
  if l.take wrapperTag.length = wrapperTag then
    match decBytes (l.drop wrapperTag.length) with
    | none => none
    | some (t, r1) =>
      match decBytes r1 with
      | none => none
      | some (d, r2) => if r2 = [] then some ⟨t, d⟩ else none
  else none

/-! ## Python byte-string primitives -/

/-- Resolve a Python slice bound: negative indices count from the end, then
the result is clamped to `[0, len]`. -/
def pyBound (len : Nat) (i : Int) : Nat :=
  let j := if i < 0 then i + len else i
  if j < 0 then 0 else min j.toNat len

/-- Python `l[a:b]` on a byte string. -/
def pySlice (l : List Nat) (a b : Int) : List Nat :=
  (l.take (pyBound l.length b)).drop (pyBound l.length a)

/-- Python `l[a:]` on a byte string. -/
def pySliceFrom (l : List Nat) (a : Int) : List Nat :=
  l.drop (pyBound l.length a)

/-- Python `bytes.strip(b"\x00")`: NUL bytes removed from both ends. -/
def stripNul (l : List Nat) : List Nat :=
  ((l.dropWhile fun b => b = 0).reverse.dropWhile fun b => b = 0).reverse

/-- The byte string `b"s3"`. -/
def tagS3 : List Nat := [115, 51]

/-! ## The migrator -/

/-- Failure modes of `migrate`.  `unsupportedBackend` is the `ValueError`
raised on an unknown `storage_info_type` (the spec's
`UnsupportedBackendError`); `decodeFailure` covers `pygob` decode
exceptions; `notFound` covers a missing source object. -/
inductive MigrateError where
  | headerFailure (e : HeaderFailure)
  | unsupportedBackend
  | decodeFailure
  | notFound
  deriving DecidableEq, Repr

/-- `ImageMigrator.get_s3_storage_info`: byte-range read of
`[pos, pos + length)` from the source object, then the wrapper and the
inner descriptor are decoded. -/
def get_s3_storage_info (archive : List Nat) (pos length : Int) : Option S3StorageInfo :=
  let data := (archive.drop pos.toNat).take length.toNat
  match gobLoadWrapper data with
  | none => none
  | some wrapper => gobLoadS3Info wrapper.Data

/-- `ImageMigrator.update_binary`: re-packs the passed header and splices
`new_s3_info_data` in, taking the preserved tail from
`storage_info_pos + storage_info_length` of the *passed* header (which
`migrate` has already set to the new section length). -/
def update_binary (full_data : List Nat) (header : ClipArchiveHeader)
    (new_s3_info_data : List Nat) : List Nat :=
  packHeader header
    ++ pySlice full_data (CLIP_ARCHIVE_HEADER_SIZE : Nat) header.storage_info_pos
    ++ new_s3_info_data
    ++ pySliceFrom full_data (header.storage_info_pos + header.storage_info_length)

/-- The wrapper bytes `migrate` builds and splices in: a fresh
`S3StorageInfo` carrying the *source* bucket configuration's coordinates
and the original key, wrapped with type `b"s3"` and serialized. -/
def newWrapperData (cfg : BucketConfiguration) (key : List Nat) : List Nat :=
  gobDumpWrapper ⟨tagS3, gobDumpS3Info ⟨cfg.bucket, cfg.region, key, cfg.endpoint⟩⟩

/-- `ImageMigrator.migrate`, as a function of the source archive bytes and
the two bucket configurations, returning the bytes uploaded to the target
(the upload is the final step, so every error leaves the target untouched). -/
def migrate (archive : List Nat) (source_bucket target_bucket : BucketConfiguration) :
    Except MigrateError (List Nat) :=
  match get_header archive with
  | .error e => .error (.headerFailure e)
  | .ok header =>
    if stripNul header.storage_info_type = tagS3 then
      match get_s3_storage_info archive header.storage_info_pos header.storage_info_length with
      | none => .error .decodeFailure
      | some s3_info =>
        let new_wrapper_data := newWrapperData source_bucket s3_info.Key
        let header' :=
          { header with storage_info_length := (new_wrapper_data.length : Int) }
        .ok (update_binary archive header' new_wrapper_data)
    else .error .unsupportedBackend

/-- An object store: key to object bytes. -/
def Store : Type := List Nat → Option (List Nat)

/-- `put_object`: atomic whole-object write. -/
def putStore (store : Store) (key v : List Nat) : Store :=
  fun k => if k = key then some v else store k

/-- One run of `migrate image_key` against a source and a target store:
returns the target store after the run.  On any failure (including a
missing source object) the target store is returned unchanged, because the
upload is the pipeline's final step. -/
def migrateFinalStore (sourceStore targetStore : Store)
    (source_bucket target_bucket : BucketConfiguration) (image_key : List Nat) : Store :=
  match sourceStore image_key with
  | none => targetStore
  | some archive =>
    match migrate archive source_bucket target_bucket with
    | .error _ => targetStore
    | .ok out => putStore targetStore image_key out

/-! ## Lemmas about the header codec -/

theorem natToLe_length (k n : Nat) : (natToLe k n).length = k := by
  induction k generalizing n with
  | zero => rfl
  | succ k ih => simp [natToLe, ih]

theorem int64ToBytes_length (i : Int) : (int64ToBytes i).length = 8 :=
  natToLe_length 8 _

theorem padTo_length (n : Nat) (b : List Nat) : (padTo n b).length = n := by
  simp [padTo]
  omega

theorem packHeader_length (h : ClipArchiveHeader) : (packHeader h).length = 54 := by
  simp [packHeader, padTo_length, int64ToBytes_length]

theorem padTo_eq_of_length {n : Nat} {b : List Nat} (h : b.length = n) : padTo n b = b := by
  subst h
  simp [padTo, List.take_of_length_le]

theorem leToNat_natToLe (k n : Nat) : leToNat (natToLe k n) = n % 256 ^ k := by
  induction k generalizing n with
  | zero => simp [natToLe, leToNat, Nat.mod_one]
  | succ k ih =>
    have h256 : (256 : Nat) ^ (k + 1) = 256 * 256 ^ k := by ring
    simp [natToLe, leToNat, ih, h256, Nat.mod_mul]

/-- Two's-complement round trip for in-range signed 64-bit values. -/
theorem bytesToInt64_int64ToBytes {i : Int} (h1 : -(2 ^ 63) ≤ i) (h2 : i < 2 ^ 63) :
    bytesToInt64 (int64ToBytes i) = i := by
  unfold bytesToInt64 int64ToBytes
  rcases le_or_lt 0 i with hpos | hneg
  · have hmod : i % (18446744073709551616 : Int) = i :=
      Int.emod_eq_of_lt hpos (by omega)
    rw [hmod]
    have htn : ((i.toNat : Int)) = i := Int.toNat_of_nonneg hpos
    have hlt : i.toNat < 256 ^ 8 := by norm_num; omega
    rw [leToNat_natToLe, Nat.mod_eq_of_lt hlt]
    have hsm : i.toNat < 9223372036854775808 := by omega
    simp only [hsm, if_pos, htn]
  · have hmod : i % (18446744073709551616 : Int) = i + 18446744073709551616 := by
      omega
    rw [hmod]
    have hnn : (0 : Int) ≤ i + 18446744073709551616 := by omega
    have hlt : (i + 18446744073709551616).toNat < 256 ^ 8 := by norm_num; omega
    rw [leToNat_natToLe, Nat.mod_eq_of_lt hlt]
    have hge : ¬ (i + 18446744073709551616).toNat < 9223372036854775808 := by omega
    simp only [hge, if_neg, if_false]
    omega

/-- The header a decode of an encode yields: every field as re-read from its
packed form. -/
def canonHeader (h : ClipArchiveHeader) : ClipArchiveHeader :=
  { start_bytes := padTo 9 h.start_bytes
    clip_file_format_version := h.clip_file_format_version % 256
    index_length := bytesToInt64 (int64ToBytes h.index_length)
    index_pos := bytesToInt64 (int64ToBytes h.index_pos)
    storage_info_length := bytesToInt64 (int64ToBytes h.storage_info_length)
    storage_info_pos := bytesToInt64 (int64ToBytes h.storage_info_pos)
    storage_info_type := padTo 12 h.storage_info_type }

theorem unpackHeader_packHeader (h : ClipArchiveHeader) :
    unpackHeader (packHeader h) = some (canonHeader h) := by
  have e0 : packHeader h =
      padTo 9 h.start_bytes ++
        ([h.clip_file_format_version % 256] ++
          (int64ToBytes h.index_length ++
            (int64ToBytes h.index_pos ++
              (int64ToBytes h.storage_info_length ++
                (int64ToBytes h.storage_info_pos ++ padTo 12 h.storage_info_type))))) := by
    simp [packHeader, List.append_assoc]
  have d9 : (packHeader h).drop 9 =
      [h.clip_file_format_version % 256] ++
        (int64ToBytes h.index_length ++
          (int64ToBytes h.index_pos ++
            (int64ToBytes h.storage_info_length ++
              (int64ToBytes h.storage_info_pos ++ padTo 12 h.storage_info_type)))) := by
    rw [e0, List.drop_left' (padTo_length 9 _)]
  have d10 : (packHeader h).drop 10 =
      int64ToBytes h.index_length ++
        (int64ToBytes h.index_pos ++
          (int64ToBytes h.storage_info_length ++
            (int64ToBytes h.storage_info_pos ++ padTo 12 h.storage_info_type))) := by
    have : (packHeader h).drop 10 = ((packHeader h).drop 9).drop 1 := by
      rw [List.drop_drop]
    rw [this, d9, List.drop_left' (by simp)]
  have d18 : (packHeader h).drop 18 =
      int64ToBytes h.index_pos ++
        (int64ToBytes h.storage_info_length ++
          (int64ToBytes h.storage_info_pos ++ padTo 12 h.storage_info_type)) := by
    have : (packHeader h).drop 18 = ((packHeader h).drop 10).drop 8 := by
      rw [List.drop_drop]
    rw [this, d10, List.drop_left' (int64ToBytes_length _)]
  have d26 : (packHeader h).drop 26 =
      int64ToBytes h.storage_info_length ++
        (int64ToBytes h.storage_info_pos ++ padTo 12 h.storage_info_type) := by
    have : (packHeader h).drop 26 = ((packHeader h).drop 18).drop 8 := by
      rw [List.drop_drop]
    rw [this, d18, List.drop_left' (int64ToBytes_length _)]
  have d34 : (packHeader h).drop 34 =
      int64ToBytes h.storage_info_pos ++ padTo 12 h.storage_info_type := by
    have : (packHeader h).drop 34 = ((packHeader h).drop 26).drop 8 := by
      rw [List.drop_drop]
    rw [this, d26, List.drop_left' (int64ToBytes_length _)]
  have d42 : (packHeader h).drop 42 = padTo 12 h.storage_info_type := by
    have : (packHeader h).drop 42 = ((packHeader h).drop 34).drop 8 := by
      rw [List.drop_drop]
    rw [this, d34, List.drop_left' (int64ToBytes_length _)]
  have hst : (packHeader h).take 9 = padTo 9 h.start_bytes := by
    rw [e0, List.take_append_of_le_length (by rw [padTo_length]),
      List.take_of_length_le (by rw [padTo_length])]
  have hv : ((packHeader h).drop 9).headD 0 = h.clip_file_format_version % 256 := by
    rw [d9]
    rfl
  have hil : ((packHeader h).drop 10).take 8 = int64ToBytes h.index_length := by
    rw [d10, List.take_append_of_le_length (by rw [int64ToBytes_length]),
      List.take_of_length_le (by rw [int64ToBytes_length])]
  have hip : ((packHeader h).drop 18).take 8 = int64ToBytes h.index_pos := by
    rw [d18, List.take_append_of_le_length (by rw [int64ToBytes_length]),
      List.take_of_length_le (by rw [int64ToBytes_length])]
  have hsl : ((packHeader h).drop 26).take 8 = int64ToBytes h.storage_info_length := by
    rw [d26, List.take_append_of_le_length (by rw [int64ToBytes_length]),
      List.take_of_length_le (by rw [int64ToBytes_length])]
  have hsp : ((packHeader h).drop 34).take 8 = int64ToBytes h.storage_info_pos := by
    rw [d34, List.take_append_of_le_length (by rw [int64ToBytes_length]),
      List.take_of_length_le (by rw [int64ToBytes_length])]
  have hty : ((packHeader h).drop 42).take 12 = padTo 12 h.storage_info_type := by
    rw [d42, List.take_of_length_le (by rw [padTo_length])]
  rw [unpackHeader, if_pos (packHeader_length h), hst, hv, hil, hip, hsl, hsp, hty]
  rfl

theorem get_header_append (h : ClipArchiveHeader) (rest : List Nat) :
    get_header (packHeader h ++ rest) = .ok (canonHeader h) := by
  unfold get_header CLIP_ARCHIVE_HEADER_SIZE
  rw [List.take_append_of_le_length (by rw [packHeader_length]),
    List.take_of_length_le (by rw [packHeader_length]), unpackHeader_packHeader]

/-! ## Lemmas about the tagged-value codec -/

theorem decVarint_encVarintAux (fuel n : Nat) (hle : n ≤ fuel) (rest : List Nat) :
    decVarint (encVarintAux fuel n ++ rest) = some (n, rest) := by
  induction fuel generalizing n with
  | zero =>
    have hn : n = 0 := by omega
    subst hn
    simp [encVarintAux, decVarint]
  | succ fuel ih =>
    by_cases h128 : n < 128
    · simp [encVarintAux, h128, decVarint]
    · have hrec : n / 128 ≤ fuel := by omega
      have hb : ¬ (n % 128 + 128 < 128) := by omega
      simp only [encVarintAux, h128, if_neg, if_false, List.cons_append, decVarint, hb,
        ih (n / 128) hrec]
      simp only [Prod.mk.injEq, Option.some.injEq]
      refine ⟨?_, trivial⟩
      omega

theorem decVarint_encVarint (n : Nat) (rest : List Nat) :
    decVarint (encVarint n ++ rest) = some (n, rest) :=
  decVarint_encVarintAux n n (Nat.le_refl n) rest

theorem decBytes_encBytes (b rest : List Nat) :
    decBytes (encBytes b ++ rest) = some (b, rest) := by
  simp only [decBytes, encBytes, List.append_assoc, decVarint_encVarint]
  rw [if_pos (by simp), List.take_append_of_le_length (Nat.le_refl _),
    List.take_of_length_le (Nat.le_refl _), List.drop_left]

theorem gobLoadS3Info_gobDumpS3Info (s : S3StorageInfo) :
    gobLoadS3Info (gobDumpS3Info s) = some s := by
  have e0 : gobDumpS3Info s =
      s3InfoTag ++
        (encBytes s.Bucket ++ (encBytes s.Region ++ (encBytes s.Key ++ (encBytes s.Endpoint ++ [])))) := by
    simp [gobDumpS3Info, List.append_assoc]
  rw [gobLoadS3Info, e0, List.take_append_of_le_length (Nat.le_refl _),
    List.take_of_length_le (Nat.le_refl _), if_pos rfl, List.drop_left]
  simp only [decBytes_encBytes]
  rfl

theorem gobLoadWrapper_gobDumpWrapper (w : StorageInfoWrapper) :
    gobLoadWrapper (gobDumpWrapper w) = some w := by
  have e0 : gobDumpWrapper w = wrapperTag ++ (encBytes w.Type' ++ (encBytes w.Data ++ [])) := by
    simp [gobDumpWrapper, List.append_assoc]
  rw [gobLoadWrapper, e0, List.take_append_of_le_length (Nat.le_refl _),
    List.take_of_length_le (Nat.le_refl _), if_pos rfl, List.drop_left]
  simp only [decBytes_encBytes]
  rfl

/-! ## Lemmas about the Python slice model -/

theorem List.drop_min_length (l : List Nat) (n : Nat) :
    l.drop (min n l.length) = l.drop n := by
  rcases le_or_lt n l.length with h | h
  · rw [Nat.min_eq_left h]
  · rw [Nat.min_eq_right (Nat.le_of_lt h), List.drop_of_length_le (Nat.le_refl _),
      List.drop_of_length_le (Nat.le_of_lt h)]

theorem List.take_min_length (l : List Nat) (n : Nat) :
    l.take (min n l.length) = l.take n := by
  rcases le_or_lt n l.length with h | h
  · rw [Nat.min_eq_left h]
  · rw [Nat.min_eq_right (Nat.le_of_lt h), List.take_of_length_le (Nat.le_refl _),
      List.take_of_length_le (Nat.le_of_lt h)]

theorem pyBound_nonneg {a : Int} (ha : 0 ≤ a) (len : Nat) :
    pyBound len a = min a.toNat len := by
  unfold pyBound
  have h1 : ¬ a < 0 := by omega
  simp [h1]

theorem pySliceFrom_nonneg {a : Int} (ha : 0 ≤ a) (l : List Nat) :
    pySliceFrom l a = l.drop a.toNat := by
  rw [pySliceFrom, pyBound_nonneg ha, List.drop_min_length]

theorem pySlice_nonneg {a b : Int} (ha : 0 ≤ a) (hb : 0 ≤ b) (l : List Nat) :
    pySlice l a b = (l.take b.toNat).drop a.toNat := by
  rw [pySlice, pyBound_nonneg ha, pyBound_nonneg hb, List.take_min_length]
  rcases le_or_lt a.toNat l.length with h | h
  · rw [Nat.min_eq_left h]
  · rw [Nat.min_eq_right (Nat.le_of_lt h)]
    rw [List.drop_of_length_le (le_trans (by simp) (Nat.le_refl _)), eq_comm,
      List.drop_eq_nil_iff]
    simp
    omega

/-! ## Lemmas about `migrate` and `update_binary` -/

/-- Inversion of a successful `migrate` run: the type tag was `s3` and the
output is the splice of the freshly encoded wrapper, with the header's
`storage_info_length` already set to the new section's length. -/
theorem migrate_ok_inv {archive : List Nat} {s t : BucketConfiguration} {out : List Nat}
    {h : ClipArchiveHeader} {i : S3StorageInfo}
    (hh : get_header archive = .ok h)
    (hi : get_s3_storage_info archive h.storage_info_pos h.storage_info_length = some i)
    (hok : migrate archive s t = .ok out) :
    stripNul h.storage_info_type = tagS3 ∧
      out = update_binary archive
        { h with storage_info_length := ((newWrapperData s i.Key).length : Int) }
        (newWrapperData s i.Key) := by
  unfold migrate at hok
  rw [hh] at hok
  by_cases htag : stripNul h.storage_info_type = tagS3
  · simp only [htag, eq_self_iff_true, if_true, hi, Except.ok.injEq] at hok
    exact ⟨htag, hok.symm⟩
  · simp only [if_neg htag] at hok
    exact Except.noConfusion hok


/-- Dropping the first `storage_info_pos` bytes of the splice output lands
exactly on the newly spliced section. -/
theorem update_binary_drop (archive new : List Nat) (h' : ClipArchiveHeader)
    (h54 : 54 ≤ h'.storage_info_pos) (hle : h'.storage_info_pos ≤ (archive.length : Int)) :
    (update_binary archive h' new).drop h'.storage_info_pos.toNat =
      new ++ pySliceFrom archive (h'.storage_info_pos + h'.storage_info_length) := by
  have hMlen : (pySlice archive ((CLIP_ARCHIVE_HEADER_SIZE : Nat) : Int)
      h'.storage_info_pos).length = h'.storage_info_pos.toNat - 54 := by
    simp only [CLIP_ARCHIVE_HEADER_SIZE]
    rw [pySlice_nonneg (by norm_num) (by omega)]
    have ht : (((54 : Nat) : Int)).toNat = 54 := rfl
    rw [ht]
    simp only [List.length_drop, List.length_take]
    omega
  have hlen : (packHeader h' ++ pySlice archive ((CLIP_ARCHIVE_HEADER_SIZE : Nat) : Int)
      h'.storage_info_pos).length = h'.storage_info_pos.toNat := by
    rw [List.length_append, packHeader_length, hMlen]
    omega
  unfold update_binary
  rw [List.append_assoc, List.drop_left' hlen]

/-- The storage-descriptor section of a successful migration's output, read
back at the original position with the new length, decodes to a descriptor
carrying the source configuration's bucket, region and endpoint and the
original key. -/
theorem migrate_section_decode {archive : List Nat} {s t : BucketConfiguration} {out : List Nat}
    {h : ClipArchiveHeader} {i : S3StorageInfo}
    (hh : get_header archive = .ok h)
    (hi : get_s3_storage_info archive h.storage_info_pos h.storage_info_length = some i)
    (hok : migrate archive s t = .ok out)
    (h54 : 54 ≤ h.storage_info_pos)
    (hle : h.storage_info_pos ≤ (archive.length : Int)) :
    get_s3_storage_info out h.storage_info_pos ((newWrapperData s i.Key).length : Int) =
      some ⟨s.bucket, s.region, i.Key, s.endpoint⟩ := by
  obtain ⟨-, hout⟩ := migrate_ok_inv hh hi hok
  have hdrop := update_binary_drop archive (newWrapperData s i.Key)
    { h with storage_info_length := ((newWrapperData s i.Key).length : Int) } h54 hle
  rw [← hout] at hdrop
  simp only [get_s3_storage_info]
  rw [hdrop]
  have htoNat : (((newWrapperData s i.Key).length : Int)).toNat =
      (newWrapperData s i.Key).length := by omega
  rw [htoNat, List.take_left]
  show (match gobLoadWrapper (gobDumpWrapper
      ⟨tagS3, gobDumpS3Info ⟨s.bucket, s.region, i.Key, s.endpoint⟩⟩) with
    | none => none
    | some wrapper => gobLoadS3Info wrapper.Data) =
      some ⟨s.bucket, s.region, i.Key, s.endpoint⟩
  rw [gobLoadWrapper_gobDumpWrapper]
  exact gobLoadS3Info_gobDumpS3Info _

/-- The header re-encoded at the front of every splice output decodes to the
canonical re-reading of the header that was passed in. -/
theorem get_header_update_binary (archive new : List Nat) (h' : ClipArchiveHeader) :
    get_header (update_binary archive h' new) = .ok (canonHeader h') := by
  unfold update_binary
  rw [List.append_assoc, List.append_assoc, get_header_append]

theorem canonHeader_storage_info_length (h : ClipArchiveHeader) :
    (canonHeader h).storage_info_length = bytesToInt64 (int64ToBytes h.storage_info_length) := by
  simp only [canonHeader]

theorem canonHeader_index_pos (h : ClipArchiveHeader) :
    (canonHeader h).index_pos = bytesToInt64 (int64ToBytes h.index_pos) := by
  simp only [canonHeader]

/-! ## Concrete fixtures used by counterexamples and witnesses -/

/-- A source descriptor: bucket `[10,11]`, region `[12]`, key `[42,43,44]`,
endpoint `[13,14]`. -/
def sampleInfo : S3StorageInfo := ⟨[10, 11], [12], [42, 43, 44], [13, 14]⟩

/-- The encoded wrapper section of the sample source archive (18 bytes). -/
def sampleWrapperBytes : List Nat := gobDumpWrapper ⟨tagS3, gobDumpS3Info sampleInfo⟩

/-- A source bucket configuration (field lengths differ from `sampleInfo`,
so the re-encoded section has a different length). -/
def cfgS : BucketConfiguration :=
  { bucket := [1, 1, 1], region := [2, 2], endpoint := [3, 3, 3], force_path_style := false }

/-- A target bucket configuration, distinct from `cfgS` in every coordinate. -/
def cfgT : BucketConfiguration :=
  { bucket := [9], region := [8], endpoint := [7], force_path_style := false }

/-- Header of a sample archive whose storage-descriptor section is the last
section (it starts right after the header). -/
def sampleHeaderA : ClipArchiveHeader :=
  { start_bytes := [67, 76, 73, 80, 65, 82, 88, 86, 0]
    clip_file_format_version := 1
    index_length := 0
    index_pos := 0
    storage_info_length := (sampleWrapperBytes.length : Int)
    storage_info_pos := 54
    storage_info_type := [115, 51, 0, 0, 0, 0, 0, 0, 0, 0, 0, 0] }

/-- A 72-byte archive: 54-byte header followed by the descriptor section. -/
def sampleArchiveA : List Nat := packHeader sampleHeaderA ++ sampleWrapperBytes

/-- The archive `migrate` uploads for `sampleArchiveA` with `cfgS`/`cfgT`. -/
def outA : List Nat := (migrate sampleArchiveA cfgS cfgT).toOption.getD []

/-- Header of a sample archive that also has a 5-byte index section placed
after the descriptor section's old end (at offset 72). -/
def sampleHeaderB : ClipArchiveHeader :=
  { start_bytes := [67, 76, 73, 80, 65, 82, 88, 86, 0]
    clip_file_format_version := 1
    index_length := 5
    index_pos := 72
    storage_info_length := (sampleWrapperBytes.length : Int)
    storage_info_pos := 54
    storage_info_type := [115, 51, 0, 0, 0, 0, 0, 0, 0, 0, 0, 0] }

/-- A 77-byte archive: header, descriptor section, then the index bytes. -/
def sampleArchiveB : List Nat := packHeader sampleHeaderB ++ sampleWrapperBytes ++ [1, 2, 3, 4, 5]

/-- The archive `migrate` uploads for `sampleArchiveB` with `cfgS`/`cfgT`. -/
def outB : List Nat := (migrate sampleArchiveB cfgS cfgT).toOption.getD []

/-- A header whose NUL-stripped `storage_info_type` is `b"s4"`, not `b"s3"`. -/
def badHeader : ClipArchiveHeader :=
  { sampleHeaderA with storage_info_type := [115, 52, 0, 0, 0, 0, 0, 0, 0, 0, 0, 0] }

/-- A 54-byte archive with the unknown backend tag. -/
def badArchive : List Nat := packHeader badHeader

/-- A source store holding only `badArchive` under key `[5]`. -/
def badSourceStore : Store := fun k => if k = [5] then some badArchive else none

/-- A target store holding a previous object under key `[5]`. -/
def someTargetStore : Store := fun k => if k = [5] then some [255] else none

/-! ## Claim theorems -/

/-- C4: for every header whose NUL-stripped `storage_info_type` is not the
known variant tag `b"s3"`, `migrate` fails with the unsupported-backend
error (the `ValueError` raise), and no write to the target backend occurs:
the target store is returned unchanged. -/
theorem c4_unknown_tag_rejected {archive : List Nat} {s t : BucketConfiguration}
    {h : ClipArchiveHeader}
    (hh : get_header archive = .ok h)
    (htag : stripNul h.storage_info_type ≠ tagS3) :
    migrate archive s t = .error .unsupportedBackend ∧
      ∀ sourceStore targetStore : Store, ∀ key : List Nat,
        sourceStore key = some archive →
        migrateFinalStore sourceStore targetStore s t key = targetStore := by
  have hm : migrate archive s t = .error .unsupportedBackend := by
    unfold migrate
    rw [hh]
    simp only [if_neg htag]
  refine ⟨hm, ?_⟩
  intro src tgt key hsrc
  unfold migrateFinalStore
  rw [hsrc]
  show (match migrate archive s t with
    | .error _ => tgt
    | .ok out => putStore tgt key out) = tgt
  rw [hm]

/-- C4 witness: a concrete archive with tag `b"s4"` is rejected with the
unsupported-backend error and leaves a concrete target store untouched. -/
theorem c4_unknown_tag_rejected_witness :
    get_header badArchive = .ok badHeader ∧
      stripNul badHeader.storage_info_type ≠ tagS3 ∧
      migrate badArchive cfgS cfgT = .error .unsupportedBackend ∧
      migrateFinalStore badSourceStore someTargetStore cfgS cfgT [5] = someTargetStore := by
  have h1 : get_header badArchive = .ok badHeader := by rfl
  have h2 : stripNul badHeader.storage_info_type ≠ tagS3 := by decide
  obtain ⟨hm, hst⟩ := c4_unknown_tag_rejected (s := cfgS) (t := cfgT) h1 h2
  exact ⟨h1, h2, hm, hst badSourceStore someTargetStore [5] (by rfl)⟩

/-- C7: on a source object of fewer than 54 bytes, `get_header` does not
fail with the spec's structured `MalformedHeaderError`: `struct.unpack`
raises `struct.error`, the handler only prints, and the subsequent use of
the unassigned `unpacked_data` raises an unrelated `UnboundLocalError`. -/
theorem c7_short_header_unbound_local {archive : List Nat} (hlen : archive.length < 54) :
    get_header archive = .error .unboundLocalError ∧
      HeaderFailure.unboundLocalError ≠ HeaderFailure.malformedHeaderError := by
  have hnone : unpackHeader (archive.take CLIP_ARCHIVE_HEADER_SIZE) = none := by
    unfold unpackHeader CLIP_ARCHIVE_HEADER_SIZE
    rw [if_neg ?_]
    simp only [List.length_take]
    omega
  constructor
  · unfold get_header
    rw [hnone]
  · decide

/-- C7 witness: the empty source object crashes with the unrelated error. -/
theorem c7_short_header_unbound_local_witness :
    ([] : List Nat).length < 54 ∧
      get_header [] = .error .unboundLocalError ∧
      HeaderFailure.unboundLocalError ≠ HeaderFailure.malformedHeaderError := by
  refine ⟨by decide, ?_⟩
  exact c7_short_header_unbound_local (by decide)

/-- C8: decoding the 54-byte encoding of a structurally valid header yields
the header again, and decoding the tagged-value encoding of any storage
descriptor yields an equal descriptor. -/
theorem c8_roundtrip (h : ClipArchiveHeader) (s : S3StorageInfo)
    (h9 : h.start_bytes.length = 9)
    (hv : h.clip_file_format_version < 256)
    (h12 : h.storage_info_type.length = 12)
    (hil1 : -(2 ^ 63) ≤ h.index_length) (hil2 : h.index_length < 2 ^ 63)
    (hip1 : -(2 ^ 63) ≤ h.index_pos) (hip2 : h.index_pos < 2 ^ 63)
    (hsl1 : -(2 ^ 63) ≤ h.storage_info_length) (hsl2 : h.storage_info_length < 2 ^ 63)
    (hsp1 : -(2 ^ 63) ≤ h.storage_info_pos) (hsp2 : h.storage_info_pos < 2 ^ 63) :
    unpackHeader (packHeader h) = some h ∧ gobLoadS3Info (gobDumpS3Info s) = some s := by
  constructor
  · rw [unpackHeader_packHeader]
    have hcanon : canonHeader h = h := by
      unfold canonHeader
      rw [padTo_eq_of_length h9, padTo_eq_of_length h12, Nat.mod_eq_of_lt hv,
        bytesToInt64_int64ToBytes hil1 hil2, bytesToInt64_int64ToBytes hip1 hip2,
        bytesToInt64_int64ToBytes hsl1 hsl2, bytesToInt64_int64ToBytes hsp1 hsp2]
    rw [hcanon]
  · exact gobLoadS3Info_gobDumpS3Info s

/-- C8 witness: round trip at a concrete valid header and descriptor. -/
theorem c8_roundtrip_witness :
    sampleHeaderA.start_bytes.length = 9 ∧
      sampleHeaderA.clip_file_format_version < 256 ∧
      sampleHeaderA.storage_info_type.length = 12 ∧
      unpackHeader (packHeader sampleHeaderA) = some sampleHeaderA ∧
      gobLoadS3Info (gobDumpS3Info sampleInfo) = some sampleInfo := by
  refine ⟨by decide, by decide, by decide, ?_⟩
  exact c8_roundtrip sampleHeaderA sampleInfo (by decide) (by decide) (by decide)
    (by decide) (by decide) (by decide) (by decide) (by decide) (by decide)
    (by decide) (by decide)

/-- C1 counterexample: on a concrete migration with distinct source and
target configurations, the descriptor written into the uploaded archive
carries the *source* configuration's bucket, not the target's — refuting
the claim that the rebuilt descriptor carries the target's coordinates. -/
theorem c1_counterexample :
    migrate sampleArchiveA cfgS cfgT = .ok outA ∧
      (get_s3_storage_info outA sampleHeaderA.storage_info_pos
          ((newWrapperData cfgS sampleInfo.Key).length : Int)).map S3StorageInfo.Bucket =
        some cfgS.bucket ∧
      (get_s3_storage_info outA sampleHeaderA.storage_info_pos
          ((newWrapperData cfgS sampleInfo.Key).length : Int)).map S3StorageInfo.Bucket ≠
        some cfgT.bucket := by
  refine ⟨rfl, by decide, by decide⟩

/-- C1 (amended): for every successful migration, the rebuilt storage
descriptor's bucket, region and endpoint fields equal the *source* backend
configuration's coordinates (`migrate` passes `self.source_bucket` when
rebuilding), not the target's. -/
theorem c1_descriptor_source_coords {archive out : List Nat} {s t : BucketConfiguration}
    {h : ClipArchiveHeader} {i : S3StorageInfo}
    (hh : get_header archive = .ok h)
    (hi : get_s3_storage_info archive h.storage_info_pos h.storage_info_length = some i)
    (hok : migrate archive s t = .ok out)
    (h54 : 54 ≤ h.storage_info_pos)
    (hle : h.storage_info_pos ≤ (archive.length : Int)) :
    ∃ j : S3StorageInfo,
      get_s3_storage_info out h.storage_info_pos
          ((newWrapperData s i.Key).length : Int) = some j ∧
        j.Bucket = s.bucket ∧ j.Region = s.region ∧ j.Endpoint = s.endpoint :=
  ⟨_, migrate_section_decode hh hi hok h54 hle, rfl, rfl, rfl⟩

set_option maxHeartbeats 1600000 in
/-- C1 witness: the amended claim at the concrete sample migration. -/
theorem c1_descriptor_source_coords_witness :
    get_header sampleArchiveA = .ok sampleHeaderA ∧
      get_s3_storage_info sampleArchiveA sampleHeaderA.storage_info_pos
          sampleHeaderA.storage_info_length = some sampleInfo ∧
      migrate sampleArchiveA cfgS cfgT = .ok outA ∧
      54 ≤ sampleHeaderA.storage_info_pos ∧
      sampleHeaderA.storage_info_pos ≤ (sampleArchiveA.length : Int) ∧
      ∃ j : S3StorageInfo,
        get_s3_storage_info outA sampleHeaderA.storage_info_pos
            ((newWrapperData cfgS sampleInfo.Key).length : Int) = some j ∧
          j.Bucket = cfgS.bucket ∧ j.Region = cfgS.region ∧ j.Endpoint = cfgS.endpoint :=
  ⟨rfl, rfl, rfl, by decide, by decide,
    @c1_descriptor_source_coords sampleArchiveA outA cfgS cfgT sampleHeaderA sampleInfo
      rfl rfl rfl (by decide) (by decide)⟩

/-- C5: for every successful migration, the `Key` field of the descriptor
written into the migrated archive is byte-identical to the `Key` field
decoded from the source archive's descriptor. -/
theorem c5_key_preserved {archive out : List Nat} {s t : BucketConfiguration}
    {h : ClipArchiveHeader} {i : S3StorageInfo}
    (hh : get_header archive = .ok h)
    (hi : get_s3_storage_info archive h.storage_info_pos h.storage_info_length = some i)
    (hok : migrate archive s t = .ok out)
    (h54 : 54 ≤ h.storage_info_pos)
    (hle : h.storage_info_pos ≤ (archive.length : Int)) :
    ∃ j : S3StorageInfo,
      get_s3_storage_info out h.storage_info_pos
          ((newWrapperData s i.Key).length : Int) = some j ∧
        j.Key = i.Key :=
  ⟨_, migrate_section_decode hh hi hok h54 hle, rfl⟩

set_option maxHeartbeats 1600000 in
/-- C5 witness: key preservation at the concrete sample migration. -/
theorem c5_key_preserved_witness :
    get_header sampleArchiveA = .ok sampleHeaderA ∧
      get_s3_storage_info sampleArchiveA sampleHeaderA.storage_info_pos
          sampleHeaderA.storage_info_length = some sampleInfo ∧
      migrate sampleArchiveA cfgS cfgT = .ok outA ∧
      54 ≤ sampleHeaderA.storage_info_pos ∧
      sampleHeaderA.storage_info_pos ≤ (sampleArchiveA.length : Int) ∧
      ∃ j : S3StorageInfo,
        get_s3_storage_info outA sampleHeaderA.storage_info_pos
            ((newWrapperData cfgS sampleInfo.Key).length : Int) = some j ∧
          j.Key = sampleInfo.Key :=
  ⟨rfl, rfl, rfl, by decide, by decide,
    @c5_key_preserved sampleArchiveA outA cfgS cfgT sampleHeaderA sampleInfo
      rfl rfl rfl (by decide) (by decide)⟩

set_option maxHeartbeats 1600000 in
/-- C6: for every successful migration, the `storage_info_length` field in
the header encoded into the uploaded archive equals the byte length of the
newly encoded storage-descriptor section actually spliced in. -/
theorem c6_header_length_matches_section {archive out : List Nat} {s t : BucketConfiguration}
    {h : ClipArchiveHeader} {i : S3StorageInfo}
    (hh : get_header archive = .ok h)
    (hi : get_s3_storage_info archive h.storage_info_pos h.storage_info_length = some i)
    (hok : migrate archive s t = .ok out)
    (hbound : ((newWrapperData s i.Key).length : Int) < 2 ^ 63) :
    ∃ h2 : ClipArchiveHeader,
      get_header out = .ok h2 ∧
        h2.storage_info_length = ((newWrapperData s i.Key).length : Int) := by
  obtain ⟨-, hout⟩ := migrate_ok_inv hh hi hok
  refine ⟨canonHeader _, by rw [hout, get_header_update_binary], ?_⟩
  rw [canonHeader_storage_info_length]
  show bytesToInt64 (int64ToBytes ((newWrapperData s i.Key).length : Int)) =
    ((newWrapperData s i.Key).length : Int)
  exact bytesToInt64_int64ToBytes (by omega) hbound

set_option maxHeartbeats 1600000 in
/-- C6 witness: at the concrete sample migration the uploaded header's
`storage_info_length` equals the new section's length. -/
theorem c6_header_length_matches_section_witness :
    get_header sampleArchiveA = .ok sampleHeaderA ∧
      get_s3_storage_info sampleArchiveA sampleHeaderA.storage_info_pos
          sampleHeaderA.storage_info_length = some sampleInfo ∧
      migrate sampleArchiveA cfgS cfgT = .ok outA ∧
      ((newWrapperData cfgS sampleInfo.Key).length : Int) < 2 ^ 63 ∧
      ∃ h2 : ClipArchiveHeader,
        get_header outA = .ok h2 ∧
          h2.storage_info_length = ((newWrapperData cfgS sampleInfo.Key).length : Int) :=
  ⟨rfl, rfl, rfl, by decide,
    @c6_header_length_matches_section sampleArchiveA outA cfgS cfgT sampleHeaderA sampleInfo
      rfl rfl rfl (by decide)⟩

set_option maxHeartbeats 1600000 in
/-- C3: the rewrite never adjusts `index_pos`: even when the index section
lies after the rewritten section's old end and the section length changes
(`delta ≠ 0`), the header re-encoded into the uploaded archive carries the
*unchanged* `index_pos` — not `index_pos + delta` as the claim requires. -/
theorem c3_index_pos_not_shifted {archive out : List Nat} {s t : BucketConfiguration}
    {h : ClipArchiveHeader} {i : S3StorageInfo}
    (hh : get_header archive = .ok h)
    (hi : get_s3_storage_info archive h.storage_info_pos h.storage_info_length = some i)
    (hok : migrate archive s t = .ok out)
    (hafter : h.storage_info_pos + h.storage_info_length ≤ h.index_pos)
    (hdelta : ((newWrapperData s i.Key).length : Int) ≠ h.storage_info_length)
    (hr1 : -(2 ^ 63) ≤ h.index_pos) (hr2 : h.index_pos < 2 ^ 63) :
    ∃ h2 : ClipArchiveHeader,
      get_header out = .ok h2 ∧ h2.index_pos = h.index_pos ∧
        h2.index_pos ≠
          h.index_pos + (((newWrapperData s i.Key).length : Int) - h.storage_info_length) := by
  obtain ⟨-, hout⟩ := migrate_ok_inv hh hi hok
  have hfix : (canonHeader
      { h with storage_info_length := ((newWrapperData s i.Key).length : Int) }).index_pos =
      h.index_pos := by
    rw [canonHeader_index_pos]
    exact bytesToInt64_int64ToBytes hr1 hr2
  refine ⟨canonHeader _, by rw [hout, get_header_update_binary], hfix, ?_⟩
  rw [hfix]
  intro hcon
  apply hdelta
  omega

set_option maxHeartbeats 1600000 in
/-- C3 witness: a concrete archive whose index section sits after the
descriptor section, migrated with a length-changing re-encode
(18 bytes to 21 bytes): the uploaded header still carries `index_pos = 72`. -/
theorem c3_index_pos_not_shifted_witness :
    get_header sampleArchiveB = .ok sampleHeaderB ∧
      get_s3_storage_info sampleArchiveB sampleHeaderB.storage_info_pos
          sampleHeaderB.storage_info_length = some sampleInfo ∧
      migrate sampleArchiveB cfgS cfgT = .ok outB ∧
      sampleHeaderB.storage_info_pos + sampleHeaderB.storage_info_length ≤
        sampleHeaderB.index_pos ∧
      ((newWrapperData cfgS sampleInfo.Key).length : Int) ≠
        sampleHeaderB.storage_info_length ∧
      ∃ h2 : ClipArchiveHeader,
        get_header outB = .ok h2 ∧ h2.index_pos = sampleHeaderB.index_pos ∧
          h2.index_pos ≠
            sampleHeaderB.index_pos +
              (((newWrapperData cfgS sampleInfo.Key).length : Int) -
                sampleHeaderB.storage_info_length) :=
  ⟨rfl, rfl, rfl, by decide, by decide,
    @c3_index_pos_not_shifted sampleArchiveB outB cfgS cfgT sampleHeaderB sampleInfo
      rfl rfl rfl (by decide) (by decide) (by decide) (by decide)⟩

/-- Header passed to a splice with an old section of 6 bytes at offset 54
and `storage_info_length` already set to the new section's length (4), as
`migrate` sets it before calling `update_binary`. -/
def c2header : ClipArchiveHeader :=
  { start_bytes := [0, 0, 0, 0, 0, 0, 0, 0, 0]
    clip_file_format_version := 1
    index_length := 5
    index_pos := 60
    storage_info_length := 4
    storage_info_pos := 54
    storage_info_type := [115, 51, 0, 0, 0, 0, 0, 0, 0, 0, 0, 0] }

/-- A 65-byte archive: the byte at offset `i` has value `i`, so the old
section occupies `[54, 60)` and the 5 trailing bytes are `[60, 64]`. -/
def c2full : List Nat := List.range 65

/-- A 4-byte replacement section (`delta = -2`). -/
def c2new : List Nat := [200, 201, 202, 203]

/-- C2 counterexample: splicing a 4-byte section over the 6-byte old section
`[54, 60)` of a concrete 65-byte archive does not produce the
claimed output (header, new bytes, then the tail from the old section's end
60): the code takes the tail from `54 + 4 = 58`, so the last two bytes of
the old section are duplicated into the output. -/
theorem c2_counterexample :
    c2header.storage_info_length = (c2new.length : Int) ∧
      update_binary c2full c2header c2new ≠
        packHeader c2header ++ c2new ++ c2full.drop 60 := by
  exact ⟨by decide, by decide⟩

/-- C2 (amended): with the archive split as `A ++ B ++ C` at the old
section's boundaries (`A` ends where the old section starts, `B` is the old
section) and the header's `storage_info_length` already set to the new
length as `migrate` does, the splice output is the re-encoded header, the
bytes between the header and the old section start, the new bytes, and then
the input's bytes from offset `pos + len(new)` on: bytes after the old end
keep their absolute offsets (they are not shifted by `delta`); when
`delta > 0` the first `delta` bytes after the old end are dropped, and when
`delta < 0` the last `-delta` bytes of the old section are retained. -/
theorem c2_splice_tail_from_new_length (A B C new : List Nat) (h : ClipArchiveHeader)
    (hpos : h.storage_info_pos = (A.length : Int))
    (hlen : h.storage_info_length = (new.length : Int))
    (h54 : 54 ≤ A.length) :
    update_binary (A ++ B ++ C) h new =
      packHeader h ++ A.drop 54 ++ new ++ (B ++ C).drop new.length := by
  unfold update_binary
  rw [hpos, hlen]
  simp only [CLIP_ARCHIVE_HEADER_SIZE]
  rw [pySlice_nonneg (by omega) (by omega), pySliceFrom_nonneg (by omega)]
  have t1 : ((A.length : Int)).toNat = A.length := by omega
  have t2 : (((54 : Nat) : Int)).toNat = 54 := rfl
  have t3 : ((A.length : Int) + (new.length : Int)).toNat = A.length + new.length := by omega
  rw [t1, t2, t3, List.append_assoc A B C, List.take_left, List.drop_append]

/-- The prefix of `c2full` before the old section. -/
def c2A : List Nat := List.range 54

/-- The old section bytes of `c2full`. -/
def c2B : List Nat := [54, 55, 56, 57, 58, 59]

/-- The tail of `c2full` after the old section. -/
def c2C : List Nat := [60, 61, 62, 63, 64]

/-- C2 witness: the amended splice decomposition at the concrete input. -/
theorem c2_splice_tail_from_new_length_witness :
    c2header.storage_info_pos = (c2A.length : Int) ∧
      c2header.storage_info_length = (c2new.length : Int) ∧
      54 ≤ c2A.length ∧
      update_binary (c2A ++ c2B ++ c2C) c2header c2new =
        packHeader c2header ++ c2A.drop 54 ++ c2new ++ (c2B ++ c2C).drop c2new.length :=
  ⟨by decide, by decide, by decide,
    c2_splice_tail_from_new_length c2A c2B c2C c2new c2header
      (by decide) (by decide) (by decide)⟩

/-- Header for the C10 counterexample: old section at offset 54,
`storage_info_length` already set to the 10-byte new section's length. -/
def c10header : ClipArchiveHeader :=
  { start_bytes := [0, 0, 0, 0, 0, 0, 0, 0, 0]
    clip_file_format_version := 1
    index_length := 0
    index_pos := 0
    storage_info_length := 10
    storage_info_pos := 54
    storage_info_type := [115, 51, 0, 0, 0, 0, 0, 0, 0, 0, 0, 0] }

/-- A 60-byte archive (6-byte old section at the end). -/
def c10full : List Nat := List.range 60

/-- A 10-byte replacement section overrunning the archive's end. -/
def c10new : List Nat := List.replicate 10 5

/-- C10 counterexample: when the new section is longer than the bytes
remaining after `storage_info_pos`, the output is longer than the input —
refuting the claim that the returned archive always has exactly the input's
total byte length. -/
theorem c10_counterexample :
    c10header.storage_info_length = (c10new.length : Int) ∧
      (update_binary c10full c10header c10new).length ≠ c10full.length := by
  exact ⟨by decide, by decide⟩

/-- C10 (amended): for a call as made by `migrate` (header's
`storage_info_length` already set to the new section's length), the output
length is `max (len full_data) (pos + len new)`: it equals the input's
length exactly when the new section ends within the archive's bounds, and
exceeds it by the overrun otherwise. -/
theorem c10_output_length (full new : List Nat) (h : ClipArchiveHeader) (p : Nat)
    (hpos : h.storage_info_pos = (p : Int))
    (hlen : h.storage_info_length = (new.length : Int))
    (h54 : 54 ≤ p) (hple : p ≤ full.length) :
    (update_binary full h new).length = max full.length (p + new.length) := by
  unfold update_binary
  rw [hpos, hlen]
  simp only [CLIP_ARCHIVE_HEADER_SIZE]
  rw [pySlice_nonneg (by omega) (by omega), pySliceFrom_nonneg (by omega)]
  simp only [List.length_append, packHeader_length, List.length_drop, List.length_take]
  omega

/-- Header for the C10 witness: a 2-byte new section within bounds. -/
def c10header2 : ClipArchiveHeader := { c10header with storage_info_length := 2 }

/-- A 2-byte replacement section fitting within the archive. -/
def c10new2 : List Nat := [5, 5]

/-- C10 witness: the amended length formula at a concrete in-bounds input
(where it reduces to length preservation). -/
theorem c10_output_length_witness :
    c10header2.storage_info_pos = ((54 : Nat) : Int) ∧
      c10header2.storage_info_length = (c10new2.length : Int) ∧
      54 ≤ 54 ∧ 54 ≤ c10full.length ∧
      (update_binary c10full c10header2 c10new2).length =
        max c10full.length (54 + c10new2.length) :=
  ⟨by decide, by decide, by decide, by decide,
    c10_output_length c10full c10new2 c10header2 54
      (by decide) (by decide) (by decide) (by decide)⟩

/-- A source store holding `sampleArchiveA` under key `[5]`. -/
def goodSourceStore : Store := fun k => if k = [5] then some sampleArchiveA else none

/-- C9: `migrate` is a deterministic function of the source bytes and the
configurations: with the source object unchanged, a run uploads the same
bytes `out` whatever the target store holds, so running it a second time
(against the target state left by the first run) uploads the identical
archive and leaves the target store exactly where the first run left it. -/
theorem c9_migrate_idempotent {sourceStore targetStore : Store}
    {s t : BucketConfiguration} {key archive out : List Nat}
    (hsrc : sourceStore key = some archive)
    (h1 : migrate archive s t = .ok out) :
    migrateFinalStore sourceStore targetStore s t key = putStore targetStore key out ∧
      migrateFinalStore sourceStore (putStore targetStore key out) s t key =
        putStore targetStore key out := by
  have hrun : ∀ tgt : Store,
      migrateFinalStore sourceStore tgt s t key = putStore tgt key out := by
    intro tgt
    unfold migrateFinalStore
    rw [hsrc]
    show (match migrate archive s t with
      | .error _ => tgt
      | .ok o => putStore tgt key o) = putStore tgt key out
    rw [h1]
  refine ⟨hrun targetStore, ?_⟩
  rw [hrun (putStore targetStore key out)]
  funext k
  unfold putStore
  by_cases hk : k = key <;> simp [hk]

/-- C9 witness: two consecutive runs on the concrete sample migration leave
the target store at the same state, holding the same uploaded bytes. -/
theorem c9_migrate_idempotent_witness :
    goodSourceStore [5] = some sampleArchiveA ∧
      migrate sampleArchiveA cfgS cfgT = .ok outA ∧
      migrateFinalStore goodSourceStore someTargetStore cfgS cfgT [5] =
        putStore someTargetStore [5] outA ∧
      migrateFinalStore goodSourceStore (putStore someTargetStore [5] outA) cfgS cfgT [5] =
        putStore someTargetStore [5] outA := by
  have h := @c9_migrate_idempotent goodSourceStore someTargetStore cfgS cfgT [5]
    sampleArchiveA outA rfl rfl
  exact ⟨rfl, rfl, h.1, h.2⟩

end ClipMigrate
